import Mathlib

/-!
Verification development for the two-service transaction management system
(transaction-view-service + audit-log-service communicating over NATS).

The Lean definitions below are a shallow embedding of the TypeScript source:

* `packages/shared/src/constants/nats-subjects.constant.ts` — subject names.
* `services/transaction-view-service/src/services/transaction.service.ts` —
  the saga coordinator.  The source file carries two revisions of the
  `TransactionService` class: an earlier one (per-call confirmation
  subscription created after publishing, 5000 ms budget) and an optimized one
  (shared resolver map registered before publishing, 10000 ms budget).  The
  optimized revision is embedded in namespace `TransactionService`, the
  earlier one in namespace `TransactionServiceV1`.
* `services/audit-log-service/src/handlers/audit-log.handler.ts`,
  `services/audit-log-service/src/repositories/audit-log.repository.ts`,
  the `AuditLogService` (src/unnamed/part_016) and the audit_logs migration —
  the audit consumer and compensator.

Effectful steps (database writes, broker publishes, the confirmation waiter)
are made explicit: each saga run is a pure function of its inputs and of a
`SagaEnv` record giving the outcome of every fallible external step.  The
free-form jsonb payloads (`metadata`, `changes`) and the `ipAddress` /
`userAgent` strings are carried nowhere into control flow by the source, and
are elided from the wire envelope model.
-/

namespace TxnSys

/-- NATS subject for audit-create requests
(packages/shared/src/constants/nats-subjects.constant.ts). -/
def AUDIT_LOG_CREATE : String := "audit.log.create"

/-- NATS subject for rollback compensation messages. -/
def AUDIT_LOG_ROLLBACK : String := "audit.log.rollback"

/-- NATS subject for success acknowledgements. -/
def AUDIT_LOG_CREATED : String := "audit.log.created"

/-- NATS subject for failure notifications. -/
def AUDIT_LOG_FAILED : String := "audit.log.failed"

/-- Modelled from the spec: the shared `Currency` enum
(packages/shared/src/enums is referenced by the DTOs but the enum files are
not part of the provided sources; values are the ones listed in §3 of the
specification). -/
inductive Currency
  | USD | EUR | GBP | JPY | CAD | AUD | CHF | CNY
  deriving Repr, DecidableEq

/-- Modelled from the spec: the shared `TransactionStatus` enum (§3). -/
inductive TransactionStatus
  | PENDING | COMPLETED | FAILED | CANCELLED | PROCESSING
  deriving Repr, DecidableEq

/-- Modelled from the spec: the shared `AuditAction` enum (§3). -/
inductive AuditAction
  | CREATE | UPDATE | DELETE | READ | LOGIN | LOGOUT | ROLLBACK
  deriving Repr, DecidableEq

/-- Modelled from the spec: the shared `AuditStatus` enum (§3). -/
inductive AuditStatus
  | SUCCESS | FAILED | ROLLED_BACK | PENDING
  deriving Repr, DecidableEq

/-- Wire spelling of an `AuditAction` value. -/
def auditActionName : AuditAction → String
  | AuditAction.CREATE => "CREATE"
  | AuditAction.UPDATE => "UPDATE"
  | AuditAction.DELETE => "DELETE"
  | AuditAction.READ => "READ"
  | AuditAction.LOGIN => "LOGIN"
  | AuditAction.LOGOUT => "LOGOUT"
  | AuditAction.ROLLBACK => "ROLLBACK"

/-- Wire spelling of an `AuditStatus` value. -/
def auditStatusName : AuditStatus → String
  | AuditStatus.SUCCESS => "SUCCESS"
  | AuditStatus.FAILED => "FAILED"
  | AuditStatus.ROLLED_BACK => "ROLLED_BACK"
  | AuditStatus.PENDING => "PENDING"

/-- The wire spellings of the `AuditAction` enum members. -/
def auditActionValues : List String :=
  ["CREATE", "UPDATE", "DELETE", "READ", "LOGIN", "LOGOUT", "ROLLBACK"]

/-- The wire spellings of the `AuditStatus` enum members. -/
def auditStatusValues : List String :=
  ["SUCCESS", "FAILED", "ROLLED_BACK", "PENDING"]

/-- A row of the `transactions` table
(services/transaction-view-service/src/entities/transaction.entity.ts).
The `amount` column is `decimal(15,2)`; its exact value is carried here as an
integer count of hundredths (`amountCents`), so `amountCents = 10050` is the
decimal 100.50. -/
structure Transaction where
  id : String
  userId : String
  amountCents : Int
  currency : Currency
  status : TransactionStatus
  description : Option String
  metadata : Option String
  deriving Repr, DecidableEq

/-- The local transaction store of the transaction-view-service. -/
abbrev LocalDB := List Transaction

/-- The exact rational value of a `decimal(15,2)` amount stored as hundredths. -/
def decimalValue (cents : Int) : ℚ := (cents : ℚ) / 100

/-- An IEEE-754 binary64 value (a JavaScript `number`) is always a dyadic
rational `m * 2 ^ e`. -/
def isFloat64Value (q : ℚ) : Prop := ∃ m e : ℤ, q = (m : ℚ) * (2 : ℚ) ^ e

/-- Model of JavaScript's `Number(...)` applied to a `decimal(15,2)` column
value (the source does `Number(transaction.amount)` in `mapToDto`).  Whatever
rounding the runtime performs, the result is a binary64 value, hence a dyadic
rational; this is the only property the model assumes. -/
structure JsNumberModel where
  toNum : Int → ℚ
  toNum_float64 : ∀ c : Int, isFloat64Value (toNum c)

/-- A `JsNumberModel` instance used to instantiate theorems at concrete
inputs: it sends the stored hundredths count to the integer itself (integers
are binary64 values `m * 2 ^ 0`). -/
def jsNumberIntModel : JsNumberModel where
  toNum := fun c => (c : ℚ)
  toNum_float64 := fun c => ⟨c, 0, by simp⟩

/-- The `TransactionDto` returned by the coordinator
(packages/shared/src/dtos/transaction.dto.ts).  Its `amount` is a JavaScript
number, modelled as the rational produced by the `JsNumberModel`. -/
structure TransactionDto where
  id : String
  userId : String
  amount : ℚ
  currency : Currency
  status : TransactionStatus
  description : Option String
  metadata : Option String
  deriving Repr, DecidableEq

/-- `CreateTransactionDto` (packages/shared/src/dtos/transaction.dto.ts). -/
structure CreateTransactionDto where
  amountCents : Int
  currency : Currency
  description : Option String
  metadata : Option String
  deriving Repr, DecidableEq

/-- `UpdateTransactionDto`: every field optional. -/
structure UpdateTransactionDto where
  amountCents : Option Int
  currency : Option Currency
  status : Option TransactionStatus
  description : Option String
  metadata : Option String
  deriving Repr, DecidableEq

/-- The JSON envelope published on `audit.log.create`, as the audit consumer
receives it: every field may be absent on the wire.  The free-form
`metadata` / `changes` / `ipAddress` / `userAgent` payloads never influence
control flow in the source and are elided. -/
structure CreateAuditLogWire where
  action : Option String
  entityType : Option String
  entityId : Option String
  userId : Option String
  status : Option String
  correlationId : Option String
  serviceName : Option String
  deriving Repr, DecidableEq

/-- A message carried by the durable stream, one constructor per subject
payload shape (§4.4 of the spec, and the publish call sites). -/
inductive NatsMsg
  | create (envelope : CreateAuditLogWire)
  | rollback (correlationId : String) (reason : String)
  | created (correlationId : Option String) (auditLogId : String) (success : Bool)
  | failed (correlationId : Option String) (error : String) (success : Bool)
  deriving Repr, DecidableEq

/-- Whether a stream message is an `audit.log.create` request. -/
def NatsMsg.isCreate : NatsMsg → Bool
  | NatsMsg.create _ => true
  | _ => false

/-!  The audit correlation registry (the optimized `TransactionService`):
`auditConfirmationResolvers` is a map from correlation id to a resolver plus
a cancellable timer; here it is the list of correlation ids holding a pending
resolver.  `initializeAuditConfirmationSubscription` subscribes exactly once,
and only to `audit.log.created`. -/

/-- The subjects the optimized coordinator's background consumer loop is
subscribed to — `initializeAuditConfirmationSubscription` subscribes to
`NATS_SUBJECTS.AUDIT_LOG_CREATED` and to nothing else. -/
def registrySubscribedSubjects : List String := [AUDIT_LOG_CREATED]

/-- The correlation ids with a pending resolver in
`auditConfirmationResolvers`. -/
abbrev ResolverMap := List String

/-- The body of the shared subscription loop: on a message carrying
`correlationId`, look the resolver up; if present, clear its timer, delete
the entry and resolve `true`; if absent, drop the message.  The returned list
records the resolutions performed (correlation id, resolved value). -/
def onAuditLogCreatedMsg (correlationId : String) (pending : ResolverMap) :
    ResolverMap × List (String × Bool) :=
  if correlationId ∈ pending then
    (pending.erase correlationId, [(correlationId, true)])
  else
    (pending, [])

/-- The per-waiter timer callback in `waitForAuditConfirmation`: delete the
entry and resolve `false`.  The timer is cleared whenever the resolver is
resolved first, so it can only fire while the entry is pending. -/
def onWaiterTimeout (correlationId : String) (pending : ResolverMap) :
    ResolverMap × List (String × Bool) :=
  if correlationId ∈ pending then
    (pending.erase correlationId, [(correlationId, false)])
  else
    (pending, [])

/-- Delivery of a bus message to the registry: a subject reaches a handler
only if the registry is subscribed to it, and the only handler installed is
the `audit.log.created` loop.  Messages on other subjects (in particular
`audit.log.failed`) are never seen by the registry. -/
def registryDeliver (subject correlationId : String) (pending : ResolverMap) :
    ResolverMap × List (String × Bool) :=
  if subject ∈ registrySubscribedSubjects then
    onAuditLogCreatedMsg correlationId pending
  else
    (pending, [])

/-!  The audit consumer and compensator (audit-log-service). -/

/-- A row of the `audit_logs` table.  Per the migration
(1700000000001-CreateAuditLogsTable.ts) `action` and `status` are plain
`varchar(20)` columns — not database enums — so they are carried as strings. -/
structure AuditLogRow where
  id : String
  action : String
  entityType : String
  entityId : String
  userId : Option String
  status : String
  correlationId : String
  serviceName : String
  deriving Repr, DecidableEq

/-- The audit store owned by the audit-log-service. -/
abbrev AuditStore := List AuditLogRow

/-- The NOT NULL columns of `audit_logs`: `action`, `entity_type`,
`entity_id`, `correlation_id`, `service_name`.  `status` has default
'SUCCESS', `user_id` is nullable. -/
def requiredFieldsPresent (e : CreateAuditLogWire) : Bool :=
  e.action.isSome && e.entityType.isSome && e.entityId.isSome &&
    e.correlationId.isSome && e.serviceName.isSome

/-- The varchar column widths of `audit_logs`: action 20, entity_type 100,
entity_id 255, user_id 255, status 20, correlation_id 255, service_name 100.
A value exceeding its width makes the insert fail. -/
def fitsColumnWidths (e : CreateAuditLogWire) : Bool :=
  (e.action.getD "").length ≤ 20 && (e.entityType.getD "").length ≤ 100 &&
    (e.entityId.getD "").length ≤ 255 && (e.userId.getD "").length ≤ 255 &&
    (e.status.getD "").length ≤ 20 && (e.correlationId.getD "").length ≤ 255 &&
    (e.serviceName.getD "").length ≤ 100

/-- Whether an insert of the envelope satisfies the `audit_logs` schema.
These are the only checks the create path performs: the NATS handler does
not validate the envelope itself, and the `action` / `status` columns are
varchar, so no enum membership is enforced anywhere on this path. -/
def envelopeFitsSchema (e : CreateAuditLogWire) : Bool :=
  requiredFieldsPresent e && fitsColumnWidths e

/-- The row written by `AuditLogService.createAuditLog` for envelope `e`,
with `newId` the generated primary key.  A missing `status` takes the column
default 'SUCCESS'. -/
def rowOfEnvelope (newId : String) (e : CreateAuditLogWire) : AuditLogRow where
  id := newId
  action := e.action.getD ""
  entityType := e.entityType.getD ""
  entityId := e.entityId.getD ""
  userId := e.userId
  status := e.status.getD "SUCCESS"
  correlationId := e.correlationId.getD ""
  serviceName := e.serviceName.getD ""

/-- `AuditLogService.createAuditLog` → `AuditLogRepository.create`: a single
atomic row insert.  It yields the new store and row id, or `none` when the
schema rejects the envelope — in which case the store is untouched (no
partial row). -/
def createAuditLog (newId : String) (e : CreateAuditLogWire) (s : AuditStore) :
    Option (AuditStore × String) :=
  if envelopeFitsSchema e then some (s ++ [rowOfEnvelope newId e], newId) else none

/-- `AuditLogHandler.handleCreateAuditLog`: try to insert; on success publish
`audit.log.created` with `{correlationId, auditLogId, success: true}`; on any
error publish `audit.log.failed` with `{correlationId, error, success: false}`.
`dbAvailable = false` models a persistence failure unrelated to the envelope
(database down). -/
def handleCreateAuditLog (newId : String) (dbAvailable : Bool)
    (e : CreateAuditLogWire) (s : AuditStore) : AuditStore × List NatsMsg :=
  match (if dbAvailable then createAuditLog newId e s else none) with
  | some (s1, rowId) => (s1, [NatsMsg.created e.correlationId rowId true])
  | none => (s, [NatsMsg.failed e.correlationId "insert failed" false])

/-- `AuditLogRepository.markAsRolledBack`: update every row whose
`correlation_id` matches, setting `status` to 'ROLLED_BACK'. -/
def markAsRolledBack (correlationId : String) (s : AuditStore) : AuditStore :=
  s.map fun r =>
    if r.correlationId = correlationId then
      { r with status := "ROLLED_BACK" }
    else r

/-- `AuditLogHandler.handleRollbackAuditLog` →
`AuditLogService.rollbackAuditLogs` → `markAsRolledBack`. -/
def handleRollbackAuditLog (correlationId : String) (s : AuditStore) : AuditStore :=
  markAsRolledBack correlationId s

/-- One step of the audit consumer over a stream message: create requests are
inserted and acknowledged, rollback requests mark rows, acknowledgement
messages are not consumed by this service. -/
def auditConsumerStep (freshId : String) (s : AuditStore) (m : NatsMsg) : AuditStore :=
  match m with
  | NatsMsg.create e => (handleCreateAuditLog freshId true e s).1
  | NatsMsg.rollback correlationId _ => handleRollbackAuditLog correlationId s
  | _ => s

/-- The audit consumer processing a list of delivered messages in order. -/
def auditConsumerRun (freshId : String) (s : AuditStore) (ms : List NatsMsg) :
    AuditStore :=
  ms.foldl (auditConsumerStep freshId) s

/-!  The transaction saga coordinator
(services/transaction-view-service/src/services/transaction.service.ts). -/

/-- Default `SERVICE_NAME` of the transaction-view-service (env.config.ts). -/
def coordinatorServiceName : String := "transaction-view-service"

/-- Resolution of the audit-confirmation waiter: the promise resolves `true`
when the shared subscription sees `audit.log.created` for this correlation
id, and `false` when the per-waiter timer fires. -/
inductive WaiterOutcome
  | confirmed
  | timedOut
  deriving Repr, DecidableEq

/-- Outcome of every fallible external step of one saga run. -/
structure SagaEnv where
  localWriteOk : Bool
  createPublishOk : Bool
  waiter : WaiterOutcome
  rollbackPublishOk : Bool
  deriving Repr, DecidableEq

/-- The errors a saga operation can complete with
(services/transaction-view-service/src/exceptions/app.exception.ts, plus the
errors thrown by `NatsClient.publish`). -/
inductive SagaError
  | notFound
  | databaseError
  | distributedTransaction
  | publishError (subject : String)
  deriving Repr, DecidableEq

/-- The `error.message` string used as the rollback reason. -/
def SagaError.reasonMessage : SagaError → String
  | SagaError.notFound => "Transaction not found"
  | SagaError.databaseError => "Database error"
  | SagaError.distributedTransaction => "Audit log creation failed or timed out"
  | SagaError.publishError subject => "Failed to publish to " ++ subject

/-- Observable ordered events of one saga run.  `registerWaiter` is the
optimized coordinator's synchronous insertion into
`auditConfirmationResolvers` (together with starting the timer);
`subscribeConfirmations` is the earlier coordinator's creation of a fresh
`audit.log.created` subscription inside `waitForAuditConfirmation`. -/
inductive SagaEvent
  | registerWaiter (correlationId : String) (timeoutMs : Nat)
  | subscribeConfirmations (correlationId : String) (timeoutMs : Nat)
  | publishAttempt (subject : String) (correlationId : String)
  | localRollback
  | localCommit
  deriving Repr, DecidableEq

instance {ε α : Type} [DecidableEq ε] [DecidableEq α] : DecidableEq (Except ε α) :=
  fun x y =>
  match x, y with
  | Except.ok a, Except.ok b =>
      if h : a = b then isTrue (by rw [h]) else isFalse (fun hc => h (by injection hc))
  | Except.error e1, Except.error e2 =>
      if h : e1 = e2 then isTrue (by rw [h]) else isFalse (fun hc => h (by injection hc))
  | Except.ok _, Except.error _ => isFalse (fun hc => Except.noConfusion hc)
  | Except.error _, Except.ok _ => isFalse (fun hc => Except.noConfusion hc)

/-- Result of one saga run: the final local store, the messages that were
successfully published (in order), the ordered event trace, and the value
returned to the caller or the error thrown. -/
structure SagaOutcome (α : Type) where
  db : LocalDB
  delivered : List NatsMsg
  events : List SagaEvent
  result : Except SagaError α
  deriving Repr, DecidableEq

/-- Timeout passed to `waitForAuditConfirmation` by all three operations of
the optimized coordinator. -/
def auditAckTimeoutMs : Nat := 10000

/-- The audit-create envelope built by the coordinator: all required fields
are present, `status` is always SUCCESS (free-form payload fields elided). -/
def buildAuditEnvelope (action : AuditAction) (entityId : String)
    (userId : String) (correlationId : String) : CreateAuditLogWire where
  action := some (auditActionName action)
  entityType := some "Transaction"
  entityId := some entityId
  userId := some userId
  status := some (auditStatusName AuditStatus.SUCCESS)
  correlationId := some correlationId
  serviceName := some coordinatorServiceName

/-- The catch block shared verbatim by `createTransaction`,
`updateTransaction` and `deleteTransaction`: roll the local transaction back,
publish `audit.log.rollback` with the correlation id and the error message,
and rethrow.  If that publish itself throws, the publish error propagates to
the caller in place of the original error. -/
def sagaCatch (α : Type) (correlationId : String) (err : SagaError)
    (db0 : LocalDB) (eventsSoFar : List SagaEvent)
    (deliveredSoFar : List NatsMsg) (env : SagaEnv) : SagaOutcome α :=
  if env.rollbackPublishOk then
    { db := db0
      delivered :=
        deliveredSoFar ++ [NatsMsg.rollback correlationId err.reasonMessage]
      events := eventsSoFar ++
        [SagaEvent.localRollback,
         SagaEvent.publishAttempt AUDIT_LOG_ROLLBACK correlationId]
      result := Except.error err }
  else
    { db := db0
      delivered := deliveredSoFar
      events := eventsSoFar ++
        [SagaEvent.localRollback,
         SagaEvent.publishAttempt AUDIT_LOG_ROLLBACK correlationId]
      result := Except.error (SagaError.publishError AUDIT_LOG_ROLLBACK) }

/-- `TransactionService.mapToDto`: the `amount` column goes through
JavaScript `Number(...)` on its way into the DTO. -/
def mapToDto (J : JsNumberModel) (t : Transaction) : TransactionDto where
  id := t.id
  userId := t.userId
  amount := J.toNum t.amountCents
  currency := t.currency
  status := t.status
  description := t.description
  metadata := t.metadata

/-- The `findOne(Transaction, { where: { id, userId } })` lookup used by
update and delete: the row must match both the id and the owner's user id. -/
def findOneByIdAndUser (id userId : String) (db : LocalDB) : Option Transaction :=
  db.find? fun t => t.id == id && t.userId == userId

/-- `Object.assign(existingTransaction, dto)`: fields present in the patch
overwrite the row, absent fields are kept. -/
def applyUpdate (t : Transaction) (dto : UpdateTransactionDto) : Transaction where
  id := t.id
  userId := t.userId
  amountCents := dto.amountCents.getD t.amountCents
  currency := dto.currency.getD t.currency
  status := dto.status.getD t.status
  description := match dto.description with
    | some d => some d
    | none => t.description
  metadata := match dto.metadata with
    | some m => some m
    | none => t.metadata

namespace TransactionService

/-- Optimized `TransactionService.createTransaction`: save the new row inside
the local transaction, register the confirmation resolver before publishing,
publish `audit.log.create`, await the shared-subscription waiter with the
10000 ms budget; commit on confirmation, otherwise throw
`DistributedTransactionException` into the shared catch block. -/
def createTransaction (J : JsNumberModel) (correlationId newId userId : String)
    (dto : CreateTransactionDto) (db : LocalDB) (env : SagaEnv) :
    SagaOutcome TransactionDto :=
  let row : Transaction :=
    { id := newId
      userId := userId
      amountCents := dto.amountCents
      currency := dto.currency
      status := TransactionStatus.PENDING
      description := dto.description
      metadata := dto.metadata }
  if env.localWriteOk then
    let db1 := db ++ [row]
    let envelope := buildAuditEnvelope AuditAction.CREATE newId userId correlationId
    let ev1 := [SagaEvent.registerWaiter correlationId auditAckTimeoutMs,
                SagaEvent.publishAttempt AUDIT_LOG_CREATE correlationId]
    if env.createPublishOk then
      let sent := [NatsMsg.create envelope]
      match env.waiter with
      | WaiterOutcome.confirmed =>
          { db := db1
            delivered := sent
            events := ev1 ++ [SagaEvent.localCommit]
            result := Except.ok (mapToDto J row) }
      | WaiterOutcome.timedOut =>
          sagaCatch _ correlationId SagaError.distributedTransaction db ev1 sent env
    else
      sagaCatch _ correlationId (SagaError.publishError AUDIT_LOG_CREATE) db ev1 [] env
  else
    sagaCatch _ correlationId SagaError.databaseError db [] [] env

/-- Optimized `TransactionService.updateTransaction`: look the row up by id
and owner (throwing `NotFoundException` when absent), apply the patch and
save, then run the same register-publish-await-commit sequence. -/
def updateTransaction (J : JsNumberModel) (correlationId id userId : String)
    (dto : UpdateTransactionDto) (db : LocalDB) (env : SagaEnv) :
    SagaOutcome TransactionDto :=
  match findOneByIdAndUser id userId db with
  | none => sagaCatch _ correlationId SagaError.notFound db [] [] env
  | some existing =>
    let updated := applyUpdate existing dto
    if env.localWriteOk then
      let db1 := db.map fun t =>
        if t.id == id && t.userId == userId then updated else t
      let envelope := buildAuditEnvelope AuditAction.UPDATE id userId correlationId
      let ev1 := [SagaEvent.registerWaiter correlationId auditAckTimeoutMs,
                  SagaEvent.publishAttempt AUDIT_LOG_CREATE correlationId]
      if env.createPublishOk then
        let sent := [NatsMsg.create envelope]
        match env.waiter with
        | WaiterOutcome.confirmed =>
            { db := db1
              delivered := sent
              events := ev1 ++ [SagaEvent.localCommit]
              result := Except.ok (mapToDto J updated) }
        | WaiterOutcome.timedOut =>
            sagaCatch _ correlationId SagaError.distributedTransaction db ev1 sent env
      else
        sagaCatch _ correlationId (SagaError.publishError AUDIT_LOG_CREATE) db ev1 [] env
    else
      sagaCatch _ correlationId SagaError.databaseError db [] [] env

/-- Optimized `TransactionService.deleteTransaction`: look the row up by id
and owner (throwing `NotFoundException` when absent), remove it, then run the
same register-publish-await-commit sequence. -/
def deleteTransaction (correlationId id userId : String) (db : LocalDB)
    (env : SagaEnv) : SagaOutcome Unit :=
  match findOneByIdAndUser id userId db with
  | none => sagaCatch _ correlationId SagaError.notFound db [] [] env
  | some _ =>
    if env.localWriteOk then
      let db1 := db.filter fun t => !(t.id == id && t.userId == userId)
      let envelope := buildAuditEnvelope AuditAction.DELETE id userId correlationId
      let ev1 := [SagaEvent.registerWaiter correlationId auditAckTimeoutMs,
                  SagaEvent.publishAttempt AUDIT_LOG_CREATE correlationId]
      if env.createPublishOk then
        let sent := [NatsMsg.create envelope]
        match env.waiter with
        | WaiterOutcome.confirmed =>
            { db := db1
              delivered := sent
              events := ev1 ++ [SagaEvent.localCommit]
              result := Except.ok () }
        | WaiterOutcome.timedOut =>
            sagaCatch _ correlationId SagaError.distributedTransaction db ev1 sent env
      else
        sagaCatch _ correlationId (SagaError.publishError AUDIT_LOG_CREATE) db ev1 [] env
    else
      sagaCatch _ correlationId SagaError.databaseError db [] [] env

end TransactionService

namespace TransactionServiceV1

/-- Timeout passed to `waitForAuditConfirmation` by the earlier revision of
the coordinator kept in the source file. -/
def auditAckTimeoutMs : Nat := 5000

/-- Earlier revision of `TransactionService.createTransaction`: it publishes
`audit.log.create` first and only then calls `waitForAuditConfirmation`,
whose promise executor creates a fresh `audit.log.created` subscription — so
readiness to receive the acknowledgement is established only after the
publish, with a 5000 ms budget. -/
def createTransaction (J : JsNumberModel) (correlationId newId userId : String)
    (dto : CreateTransactionDto) (db : LocalDB) (env : SagaEnv) :
    SagaOutcome TransactionDto :=
  let row : Transaction :=
    { id := newId
      userId := userId
      amountCents := dto.amountCents
      currency := dto.currency
      status := TransactionStatus.PENDING
      description := dto.description
      metadata := dto.metadata }
  if env.localWriteOk then
    let db1 := db ++ [row]
    let envelope := buildAuditEnvelope AuditAction.CREATE newId userId correlationId
    let ev1 := [SagaEvent.publishAttempt AUDIT_LOG_CREATE correlationId]
    if env.createPublishOk then
      let sent := [NatsMsg.create envelope]
      let ev2 := ev1 ++
        [SagaEvent.subscribeConfirmations correlationId auditAckTimeoutMs]
      match env.waiter with
      | WaiterOutcome.confirmed =>
          { db := db1
            delivered := sent
            events := ev2 ++ [SagaEvent.localCommit]
            result := Except.ok (mapToDto J row) }
      | WaiterOutcome.timedOut =>
          sagaCatch _ correlationId SagaError.distributedTransaction db ev2 sent env
    else
      sagaCatch _ correlationId (SagaError.publishError AUDIT_LOG_CREATE) db ev1 [] env
  else
    sagaCatch _ correlationId SagaError.databaseError db [] [] env

end TransactionServiceV1

/-- Ordering property of a saga trace: every publish of the
`audit.log.create` envelope for a correlation id is strictly preceded by the
registration of a waiter for that correlation id. -/
def registersBeforeCreatePublish (evs : List SagaEvent) (cid : String) : Prop :=
  ∀ j : Nat, evs[j]? = some (SagaEvent.publishAttempt AUDIT_LOG_CREATE cid) →
    ∃ i t, i < j ∧ evs[i]? = some (SagaEvent.registerWaiter cid t)

end TxnSys


namespace TxnSys

lemma createTransaction_failure_spec (J : JsNumberModel)
    (cid newId uid : String) (dto : CreateTransactionDto) (db : LocalDB)
    (env : SagaEnv) (hrb : env.rollbackPublishOk = true)
    (htrig : env.localWriteOk = false ∨ env.createPublishOk = false ∨
      env.waiter = WaiterOutcome.timedOut) :
    (TransactionService.createTransaction J cid newId uid dto db env).db = db ∧
    (∃ reason, NatsMsg.rollback cid reason ∈
      (TransactionService.createTransaction J cid newId uid dto db env).delivered) ∧
    (∃ e, (TransactionService.createTransaction J cid newId uid dto db env).result
      = Except.error e) ∧
    (env.localWriteOk = true → env.createPublishOk = true →
      (TransactionService.createTransaction J cid newId uid dto db env).result
        = Except.error SagaError.distributedTransaction) := by
  obtain ⟨lw, cp, w, rp⟩ := env
  simp only at hrb
  subst hrb
  cases lw <;> cases cp <;> cases w <;>
    simp_all [TransactionService.createTransaction, sagaCatch]

lemma updateTransaction_failure_spec (J : JsNumberModel)
    (cid id uid : String) (dto : UpdateTransactionDto) (db : LocalDB)
    (env : SagaEnv) (hrb : env.rollbackPublishOk = true)
    (htrig : findOneByIdAndUser id uid db = none ∨ env.localWriteOk = false ∨
      env.createPublishOk = false ∨ env.waiter = WaiterOutcome.timedOut) :
    (TransactionService.updateTransaction J cid id uid dto db env).db = db ∧
    (∃ reason, NatsMsg.rollback cid reason ∈
      (TransactionService.updateTransaction J cid id uid dto db env).delivered) ∧
    (∃ e, (TransactionService.updateTransaction J cid id uid dto db env).result
      = Except.error e) ∧
    ((∃ t, findOneByIdAndUser id uid db = some t) →
      env.localWriteOk = true → env.createPublishOk = true →
      (TransactionService.updateTransaction J cid id uid dto db env).result
        = Except.error SagaError.distributedTransaction) := by
  obtain ⟨lw, cp, w, rp⟩ := env
  simp only at hrb
  subst hrb
  cases hfind : findOneByIdAndUser id uid db <;>
    cases lw <;> cases cp <;> cases w <;>
      simp_all [TransactionService.updateTransaction, sagaCatch]

lemma deleteTransaction_failure_spec (cid id uid : String) (db : LocalDB)
    (env : SagaEnv) (hrb : env.rollbackPublishOk = true)
    (htrig : findOneByIdAndUser id uid db = none ∨ env.localWriteOk = false ∨
      env.createPublishOk = false ∨ env.waiter = WaiterOutcome.timedOut) :
    (TransactionService.deleteTransaction cid id uid db env).db = db ∧
    (∃ reason, NatsMsg.rollback cid reason ∈
      (TransactionService.deleteTransaction cid id uid db env).delivered) ∧
    (∃ e, (TransactionService.deleteTransaction cid id uid db env).result
      = Except.error e) ∧
    ((∃ t, findOneByIdAndUser id uid db = some t) →
      env.localWriteOk = true → env.createPublishOk = true →
      (TransactionService.deleteTransaction cid id uid db env).result
        = Except.error SagaError.distributedTransaction) := by
  obtain ⟨lw, cp, w, rp⟩ := env
  simp only at hrb
  subst hrb
  cases hfind : findOneByIdAndUser id uid db <;>
    cases lw <;> cases cp <;> cases w <;>
      simp_all [TransactionService.deleteTransaction, sagaCatch]

/-- C1: For every saga operation (createTransaction, updateTransaction,
deleteTransaction), if the audit waiter resolves with failure, times out, or
any error occurs after the local transaction was opened, then the local
database transaction is rolled back (the store is left unchanged), an
`audit.log.rollback` message carrying that operation's correlation id and a
reason string is published (assuming the compensation publish itself
succeeds), and the operation fails — with `DistributedTransactionError`
whenever the cause was a failed or timed-out audit confirmation. -/
theorem c1_saga_failure_rolls_back_compensates_and_fails :
    (∀ (J : JsNumberModel) (cid newId uid : String) (dto : CreateTransactionDto)
        (db : LocalDB) (env : SagaEnv),
      env.rollbackPublishOk = true →
      (env.localWriteOk = false ∨ env.createPublishOk = false ∨
        env.waiter = WaiterOutcome.timedOut) →
      (TransactionService.createTransaction J cid newId uid dto db env).db = db ∧
      (∃ reason, NatsMsg.rollback cid reason ∈
        (TransactionService.createTransaction J cid newId uid dto db env).delivered) ∧
      (∃ e, (TransactionService.createTransaction J cid newId uid dto db env).result
        = Except.error e) ∧
      (env.localWriteOk = true → env.createPublishOk = true →
        (TransactionService.createTransaction J cid newId uid dto db env).result
          = Except.error SagaError.distributedTransaction)) ∧
    (∀ (J : JsNumberModel) (cid id uid : String) (dto : UpdateTransactionDto)
        (db : LocalDB) (env : SagaEnv),
      env.rollbackPublishOk = true →
      (findOneByIdAndUser id uid db = none ∨ env.localWriteOk = false ∨
        env.createPublishOk = false ∨ env.waiter = WaiterOutcome.timedOut) →
      (TransactionService.updateTransaction J cid id uid dto db env).db = db ∧
      (∃ reason, NatsMsg.rollback cid reason ∈
        (TransactionService.updateTransaction J cid id uid dto db env).delivered) ∧
      (∃ e, (TransactionService.updateTransaction J cid id uid dto db env).result
        = Except.error e) ∧
      ((∃ t, findOneByIdAndUser id uid db = some t) →
        env.localWriteOk = true → env.createPublishOk = true →
        (TransactionService.updateTransaction J cid id uid dto db env).result
          = Except.error SagaError.distributedTransaction)) ∧
    (∀ (cid id uid : String) (db : LocalDB) (env : SagaEnv),
      env.rollbackPublishOk = true →
      (findOneByIdAndUser id uid db = none ∨ env.localWriteOk = false ∨
        env.createPublishOk = false ∨ env.waiter = WaiterOutcome.timedOut) →
      (TransactionService.deleteTransaction cid id uid db env).db = db ∧
      (∃ reason, NatsMsg.rollback cid reason ∈
        (TransactionService.deleteTransaction cid id uid db env).delivered) ∧
      (∃ e, (TransactionService.deleteTransaction cid id uid db env).result
        = Except.error e) ∧
      ((∃ t, findOneByIdAndUser id uid db = some t) →
        env.localWriteOk = true → env.createPublishOk = true →
        (TransactionService.deleteTransaction cid id uid db env).result
          = Except.error SagaError.distributedTransaction)) :=
  ⟨fun J cid newId uid dto db env hrb htrig =>
      createTransaction_failure_spec J cid newId uid dto db env hrb htrig,
   fun J cid id uid dto db env hrb htrig =>
      updateTransaction_failure_spec J cid id uid dto db env hrb htrig,
   fun cid id uid db env hrb htrig =>
      deleteTransaction_failure_spec cid id uid db env hrb htrig⟩

/-- Instantiation of C1 at a concrete timed-out create saga. -/
theorem c1_witness :
    (TransactionService.createTransaction jsNumberIntModel "c1" "t1" "u1"
      ⟨10050, Currency.USD, none, none⟩ []
      ⟨true, true, WaiterOutcome.timedOut, true⟩).db = [] ∧
    (∃ reason, NatsMsg.rollback "c1" reason ∈
      (TransactionService.createTransaction jsNumberIntModel "c1" "t1" "u1"
        ⟨10050, Currency.USD, none, none⟩ []
        ⟨true, true, WaiterOutcome.timedOut, true⟩).delivered) ∧
    (∃ e, (TransactionService.createTransaction jsNumberIntModel "c1" "t1" "u1"
      ⟨10050, Currency.USD, none, none⟩ []
      ⟨true, true, WaiterOutcome.timedOut, true⟩).result = Except.error e) ∧
    ((true : Bool) = true → (true : Bool) = true →
      (TransactionService.createTransaction jsNumberIntModel "c1" "t1" "u1"
        ⟨10050, Currency.USD, none, none⟩ []
        ⟨true, true, WaiterOutcome.timedOut, true⟩).result
        = Except.error SagaError.distributedTransaction) :=
  c1_saga_failure_rolls_back_compensates_and_fails.1 jsNumberIntModel
    "c1" "t1" "u1" ⟨10050, Currency.USD, none, none⟩ []
    ⟨true, true, WaiterOutcome.timedOut, true⟩ rfl (Or.inr (Or.inr rfl))

lemma updateTransaction_notFound_reduces (J : JsNumberModel)
    (cid id uid : String) (dto : UpdateTransactionDto) (db : LocalDB)
    (env : SagaEnv) (hfind : findOneByIdAndUser id uid db = none) :
    TransactionService.updateTransaction J cid id uid dto db env
      = sagaCatch TransactionDto cid SagaError.notFound db [] [] env := by
  simp [TransactionService.updateTransaction, hfind]

lemma deleteTransaction_notFound_reduces (cid id uid : String) (db : LocalDB)
    (env : SagaEnv) (hfind : findOneByIdAndUser id uid db = none) :
    TransactionService.deleteTransaction cid id uid db env
      = sagaCatch Unit cid SagaError.notFound db [] [] env := by
  simp [TransactionService.deleteTransaction, hfind]

lemma sagaCatch_initial_spec (α : Type) (cid : String) (err : SagaError)
    (db : LocalDB) (env : SagaEnv) :
    (sagaCatch α cid err db [] [] env).db = db ∧
    (∀ m ∈ (sagaCatch α cid err db [] [] env).delivered, m.isCreate = false) ∧
    (env.rollbackPublishOk = true →
      (sagaCatch α cid err db [] [] env).delivered
        = [NatsMsg.rollback cid err.reasonMessage] ∧
      (sagaCatch α cid err db [] [] env).result = Except.error err) := by
  obtain ⟨lw, cp, w, rp⟩ := env
  cases rp <;> simp_all [sagaCatch, NatsMsg.isCreate]

lemma markAsRolledBack_correlationId_ne (cid other : String) (s : AuditStore)
    (h : ∀ r ∈ s, r.correlationId ≠ other) :
    ∀ r ∈ markAsRolledBack cid s, r.correlationId ≠ other := by
  intro r hr
  simp only [markAsRolledBack, List.mem_map] at hr
  obtain ⟨a, ha, rfl⟩ := hr
  by_cases hac : a.correlationId = cid
  · simpa [hac] using h a ha
  · simpa [hac] using h a ha

/-- C5: For every updateTransaction or deleteTransaction call where no
transaction row matches both the given id and the calling owner's user id,
the operation fails with NotFound (assuming the compensation publish
succeeds, see C7), the local database transaction is rolled back, and no
`audit.log.create` message is published for that operation. -/
theorem c5_notFound_rolls_back_and_publishes_no_create :
    (∀ (J : JsNumberModel) (cid id uid : String) (dto : UpdateTransactionDto)
        (db : LocalDB) (env : SagaEnv),
      findOneByIdAndUser id uid db = none →
      (TransactionService.updateTransaction J cid id uid dto db env).db = db ∧
      (∀ m ∈ (TransactionService.updateTransaction J cid id uid dto db env).delivered,
        m.isCreate = false) ∧
      (env.rollbackPublishOk = true →
        (TransactionService.updateTransaction J cid id uid dto db env).result
          = Except.error SagaError.notFound)) ∧
    (∀ (cid id uid : String) (db : LocalDB) (env : SagaEnv),
      findOneByIdAndUser id uid db = none →
      (TransactionService.deleteTransaction cid id uid db env).db = db ∧
      (∀ m ∈ (TransactionService.deleteTransaction cid id uid db env).delivered,
        m.isCreate = false) ∧
      (env.rollbackPublishOk = true →
        (TransactionService.deleteTransaction cid id uid db env).result
          = Except.error SagaError.notFound)) := by
  constructor
  · intro J cid id uid dto db env hfind
    rw [updateTransaction_notFound_reduces J cid id uid dto db env hfind]
    obtain ⟨h1, h2, h3⟩ := sagaCatch_initial_spec TransactionDto cid SagaError.notFound db env
    exact ⟨h1, h2, fun hrb => (h3 hrb).2⟩
  · intro cid id uid db env hfind
    rw [deleteTransaction_notFound_reduces cid id uid db env hfind]
    obtain ⟨h1, h2, h3⟩ := sagaCatch_initial_spec Unit cid SagaError.notFound db env
    exact ⟨h1, h2, fun hrb => (h3 hrb).2⟩

/-- Instantiation of C5 at a concrete update against an empty store. -/
theorem c5_witness :
    (TransactionService.updateTransaction jsNumberIntModel "c1" "t1" "u1"
      ⟨some 100, none, none, none, none⟩ []
      ⟨true, true, WaiterOutcome.confirmed, true⟩).db = [] ∧
    (∀ m ∈ (TransactionService.updateTransaction jsNumberIntModel "c1" "t1" "u1"
      ⟨some 100, none, none, none, none⟩ []
      ⟨true, true, WaiterOutcome.confirmed, true⟩).delivered,
      m.isCreate = false) ∧
    ((true : Bool) = true →
      (TransactionService.updateTransaction jsNumberIntModel "c1" "t1" "u1"
        ⟨some 100, none, none, none, none⟩ []
        ⟨true, true, WaiterOutcome.confirmed, true⟩).result
        = Except.error SagaError.notFound) :=
  c5_notFound_rolls_back_and_publishes_no_create.1 jsNumberIntModel
    "c1" "t1" "u1" ⟨some 100, none, none, none, none⟩ []
    ⟨true, true, WaiterOutcome.confirmed, true⟩ rfl

/-- C10 (implicit): for every updateTransaction or deleteTransaction call
that fails with NotFound, the coordinator nevertheless publishes an
`audit.log.rollback` message carrying the freshly generated correlation id
before rethrowing — so rollback messages are emitted for correlation ids for
which no `audit.log.create` was ever published, and for which processing the
operation's own published messages leaves no audit row. -/
theorem c10_notFound_still_publishes_rollback :
    (∀ (J : JsNumberModel) (cid id uid : String) (dto : UpdateTransactionDto)
        (db : LocalDB) (env : SagaEnv) (fid : String) (s : AuditStore),
      findOneByIdAndUser id uid db = none → env.rollbackPublishOk = true →
      NatsMsg.rollback cid (SagaError.reasonMessage SagaError.notFound) ∈
        (TransactionService.updateTransaction J cid id uid dto db env).delivered ∧
      (∀ m ∈ (TransactionService.updateTransaction J cid id uid dto db env).delivered,
        m.isCreate = false) ∧
      (TransactionService.updateTransaction J cid id uid dto db env).result
        = Except.error SagaError.notFound ∧
      ((∀ r ∈ s, r.correlationId ≠ cid) →
        ∀ r ∈ auditConsumerRun fid s
          (TransactionService.updateTransaction J cid id uid dto db env).delivered,
          r.correlationId ≠ cid)) ∧
    (∀ (cid id uid : String) (db : LocalDB) (env : SagaEnv) (fid : String)
        (s : AuditStore),
      findOneByIdAndUser id uid db = none → env.rollbackPublishOk = true →
      NatsMsg.rollback cid (SagaError.reasonMessage SagaError.notFound) ∈
        (TransactionService.deleteTransaction cid id uid db env).delivered ∧
      (∀ m ∈ (TransactionService.deleteTransaction cid id uid db env).delivered,
        m.isCreate = false) ∧
      (TransactionService.deleteTransaction cid id uid db env).result
        = Except.error SagaError.notFound ∧
      ((∀ r ∈ s, r.correlationId ≠ cid) →
        ∀ r ∈ auditConsumerRun fid s
          (TransactionService.deleteTransaction cid id uid db env).delivered,
          r.correlationId ≠ cid)) := by
  constructor
  · intro J cid id uid dto db env fid s hfind hrb
    rw [updateTransaction_notFound_reduces J cid id uid dto db env hfind]
    obtain ⟨h1, h2, h3⟩ := sagaCatch_initial_spec TransactionDto cid SagaError.notFound db env
    obtain ⟨hdel, hres⟩ := h3 hrb
    refine ⟨by rw [hdel]; exact List.mem_singleton_self _, h2, hres, ?_⟩
    intro hs r hr
    rw [hdel] at hr
    simp only [auditConsumerRun, List.foldl_cons, List.foldl_nil,
      auditConsumerStep, handleRollbackAuditLog] at hr
    exact markAsRolledBack_correlationId_ne cid cid s hs r hr
  · intro cid id uid db env fid s hfind hrb
    rw [deleteTransaction_notFound_reduces cid id uid db env hfind]
    obtain ⟨h1, h2, h3⟩ := sagaCatch_initial_spec Unit cid SagaError.notFound db env
    obtain ⟨hdel, hres⟩ := h3 hrb
    refine ⟨by rw [hdel]; exact List.mem_singleton_self _, h2, hres, ?_⟩
    intro hs r hr
    rw [hdel] at hr
    simp only [auditConsumerRun, List.foldl_cons, List.foldl_nil,
      auditConsumerStep, handleRollbackAuditLog] at hr
    exact markAsRolledBack_correlationId_ne cid cid s hs r hr

/-- Instantiation of C10 at a concrete delete against an empty store. -/
theorem c10_witness :
    NatsMsg.rollback "c9" (SagaError.reasonMessage SagaError.notFound) ∈
      (TransactionService.deleteTransaction "c9" "t9" "u9" []
        ⟨true, true, WaiterOutcome.confirmed, true⟩).delivered ∧
    (∀ m ∈ (TransactionService.deleteTransaction "c9" "t9" "u9" []
        ⟨true, true, WaiterOutcome.confirmed, true⟩).delivered,
      m.isCreate = false) ∧
    (TransactionService.deleteTransaction "c9" "t9" "u9" []
      ⟨true, true, WaiterOutcome.confirmed, true⟩).result
      = Except.error SagaError.notFound ∧
    ((∀ r ∈ ([] : AuditStore), r.correlationId ≠ "c9") →
      ∀ r ∈ auditConsumerRun "a9" []
        (TransactionService.deleteTransaction "c9" "t9" "u9" []
          ⟨true, true, WaiterOutcome.confirmed, true⟩).delivered,
        r.correlationId ≠ "c9") :=
  c10_notFound_still_publishes_rollback.2 "c9" "t9" "u9" []
    ⟨true, true, WaiterOutcome.confirmed, true⟩ "a9" [] rfl rfl

/-- C6: Processing an `audit.log.rollback` message sets the status of every
audit row sharing its correlation id to ROLLED_BACK (leaving the other rows
untouched), and processing the same rollback message a second time leaves
the audit store in exactly the same state as processing it once. -/
theorem c6_rollback_marks_all_rows_and_is_idempotent (cid : String) (s : AuditStore) :
    (∀ r ∈ handleRollbackAuditLog cid s,
      r.correlationId = cid → r.status = "ROLLED_BACK") ∧
    (∀ r ∈ handleRollbackAuditLog cid s, r.correlationId ≠ cid → r ∈ s) ∧
    handleRollbackAuditLog cid (handleRollbackAuditLog cid s)
      = handleRollbackAuditLog cid s := by
  refine ⟨?_, ?_, ?_⟩
  · intro r hr hcid
    simp only [handleRollbackAuditLog, markAsRolledBack, List.mem_map] at hr
    obtain ⟨a, ha, rfl⟩ := hr
    by_cases hac : a.correlationId = cid
    · simp [hac]
    · simp [hac] at hcid
  · intro r hr hcid
    simp only [handleRollbackAuditLog, markAsRolledBack, List.mem_map] at hr
    obtain ⟨a, ha, rfl⟩ := hr
    by_cases hac : a.correlationId = cid
    · simp [hac] at hcid
    · simpa [hac] using ha
  · simp only [handleRollbackAuditLog, markAsRolledBack, List.map_map]
    apply List.map_congr_left
    intro a _
    by_cases hac : a.correlationId = cid <;> simp [hac]

/-- Instantiation of C6 at a two-row store sharing and not sharing the
correlation id. -/
theorem c6_witness :
    (∀ r ∈ handleRollbackAuditLog "c1"
        [⟨"a1", "CREATE", "Transaction", "t1", some "u1", "SUCCESS", "c1", "svc"⟩,
         ⟨"a2", "CREATE", "Transaction", "t2", some "u1", "SUCCESS", "c2", "svc"⟩],
      r.correlationId = "c1" → r.status = "ROLLED_BACK") ∧
    (∀ r ∈ handleRollbackAuditLog "c1"
        [⟨"a1", "CREATE", "Transaction", "t1", some "u1", "SUCCESS", "c1", "svc"⟩,
         ⟨"a2", "CREATE", "Transaction", "t2", some "u1", "SUCCESS", "c2", "svc"⟩],
      r.correlationId ≠ "c1" →
        r ∈ [⟨"a1", "CREATE", "Transaction", "t1", some "u1", "SUCCESS", "c1", "svc"⟩,
             ⟨"a2", "CREATE", "Transaction", "t2", some "u1", "SUCCESS", "c2", "svc"⟩]) ∧
    handleRollbackAuditLog "c1" (handleRollbackAuditLog "c1"
        [⟨"a1", "CREATE", "Transaction", "t1", some "u1", "SUCCESS", "c1", "svc"⟩,
         ⟨"a2", "CREATE", "Transaction", "t2", some "u1", "SUCCESS", "c2", "svc"⟩])
      = handleRollbackAuditLog "c1"
        [⟨"a1", "CREATE", "Transaction", "t1", some "u1", "SUCCESS", "c1", "svc"⟩,
         ⟨"a2", "CREATE", "Transaction", "t2", some "u1", "SUCCESS", "c2", "svc"⟩] :=
  c6_rollback_marks_all_rows_and_is_idempotent "c1"
    [⟨"a1", "CREATE", "Transaction", "t1", some "u1", "SUCCESS", "c1", "svc"⟩,
     ⟨"a2", "CREATE", "Transaction", "t2", some "u1", "SUCCESS", "c2", "svc"⟩]

/-- C3 counterexample: the registry is not subscribed to `audit.log.failed`,
so an explicit failure message for a registered correlation id resolves
nothing — the waiter stays pending (it will later resolve false by timeout),
contradicting the claim that the future resolves false on an explicit
`audit.log.failed` message. -/
theorem c3_counterexample :
    AUDIT_LOG_FAILED ∉ registrySubscribedSubjects ∧
    registryDeliver AUDIT_LOG_FAILED "c1" ["c1"] = (["c1"], []) := by
  exact ⟨by decide, by decide⟩

/-- C3 (amended): the registry runs exactly one background consumer, for
`audit.log.created` only; the future returned by registering a waiter
resolves true on an ack for its correlation id and false on timeout, while
`audit.log.failed` messages are not subscribed and therefore never resolve a
waiter (the saga fails by timeout instead). -/
theorem c3_amended_registry_consumers_and_resolution :
    registrySubscribedSubjects = [AUDIT_LOG_CREATED] ∧
    (∀ (cid : String) (pending : ResolverMap), cid ∈ pending →
      registryDeliver AUDIT_LOG_CREATED cid pending
        = (pending.erase cid, [(cid, true)])) ∧
    (∀ (cid : String) (pending : ResolverMap), cid ∉ pending →
      registryDeliver AUDIT_LOG_CREATED cid pending = (pending, [])) ∧
    (∀ (cid : String) (pending : ResolverMap), cid ∈ pending →
      onWaiterTimeout cid pending = (pending.erase cid, [(cid, false)])) ∧
    (∀ (subject cid : String) (pending : ResolverMap),
      subject ∉ registrySubscribedSubjects →
      registryDeliver subject cid pending = (pending, [])) := by
  refine ⟨rfl, ?_, ?_, ?_, ?_⟩
  · intro cid pending hmem
    simp [registryDeliver, registrySubscribedSubjects, onAuditLogCreatedMsg, hmem]
  · intro cid pending hmem
    simp [registryDeliver, registrySubscribedSubjects, onAuditLogCreatedMsg, hmem]
  · intro cid pending hmem
    simp [onWaiterTimeout, hmem]
  · intro subject cid pending hmem
    simp [registryDeliver, hmem]

/-- Instantiation of C3 (amended) at a concrete registered waiter. -/
theorem c3_witness :
    registryDeliver AUDIT_LOG_CREATED "c1" ["c1", "c2"]
      = (["c1", "c2"].erase "c1", [("c1", true)]) :=
  c3_amended_registry_consumers_and_resolution.2.1 "c1" ["c1", "c2"] (by decide)

/-- C4 counterexample: an envelope whose `action` is not a member of the
`AuditAction` enum is nevertheless inserted and acknowledged with
`audit.log.created` — the handler performs no validation of its own, and the
migration types `action` / `status` as varchar(20), not as database enums. -/
theorem c4_counterexample :
    "BOGUS" ∉ auditActionValues ∧
    handleCreateAuditLog "a1" true
      ⟨some "BOGUS", some "Transaction", some "t1", some "u1", some "SUCCESS",
        some "c1", some "svc"⟩ []
      = ([⟨"a1", "BOGUS", "Transaction", "t1", some "u1", "SUCCESS", "c1", "svc"⟩],
         [NatsMsg.created (some "c1") "a1" true]) := by
  exact ⟨by decide, by decide⟩

/-- C4 (amended): for each inbound `audit.log.create` message the consumer
publishes exactly one of `audit.log.created` with
`{correlationId, auditLogId, success: true}` (when the insert succeeds) or
`audit.log.failed` with `{correlationId, error, success: false}` (when
persistence fails), retaining no partial row in the failure case.  The only
envelope checks are the ones the audit_logs schema enforces during the
insert — required columns NOT NULL and varchar widths; membership of
`action` / `status` in their enums is not checked anywhere on this path. -/
theorem c4_amended_consumer_acks_or_fails_atomically (newId : String)
    (dbAvailable : Bool) (e : CreateAuditLogWire) (s : AuditStore) :
    (handleCreateAuditLog newId dbAvailable e s).2.length = 1 ∧
    (dbAvailable = true → envelopeFitsSchema e = true →
      (handleCreateAuditLog newId dbAvailable e s).1 = s ++ [rowOfEnvelope newId e] ∧
      (handleCreateAuditLog newId dbAvailable e s).2
        = [NatsMsg.created e.correlationId newId true]) ∧
    (¬ (dbAvailable = true ∧ envelopeFitsSchema e = true) →
      (handleCreateAuditLog newId dbAvailable e s).1 = s ∧
      (handleCreateAuditLog newId dbAvailable e s).2
        = [NatsMsg.failed e.correlationId "insert failed" false]) := by
  cases dbAvailable <;> cases hv : envelopeFitsSchema e <;>
    simp_all [handleCreateAuditLog, createAuditLog]

/-- Instantiation of C4 (amended) at a concrete valid envelope. -/
theorem c4_witness :
    (handleCreateAuditLog "a1" true
      ⟨some "CREATE", some "Transaction", some "t1", some "u1", some "SUCCESS",
        some "c1", some "svc"⟩ []).2.length = 1 ∧
    ((true : Bool) = true → envelopeFitsSchema
        ⟨some "CREATE", some "Transaction", some "t1", some "u1", some "SUCCESS",
          some "c1", some "svc"⟩ = true →
      (handleCreateAuditLog "a1" true
        ⟨some "CREATE", some "Transaction", some "t1", some "u1", some "SUCCESS",
          some "c1", some "svc"⟩ []).1
        = [] ++ [rowOfEnvelope "a1"
            ⟨some "CREATE", some "Transaction", some "t1", some "u1", some "SUCCESS",
              some "c1", some "svc"⟩] ∧
      (handleCreateAuditLog "a1" true
        ⟨some "CREATE", some "Transaction", some "t1", some "u1", some "SUCCESS",
          some "c1", some "svc"⟩ []).2
        = [NatsMsg.created (some "c1") "a1" true]) ∧
    (¬ ((true : Bool) = true ∧ envelopeFitsSchema
        ⟨some "CREATE", some "Transaction", some "t1", some "u1", some "SUCCESS",
          some "c1", some "svc"⟩ = true) →
      (handleCreateAuditLog "a1" true
        ⟨some "CREATE", some "Transaction", some "t1", some "u1", some "SUCCESS",
          some "c1", some "svc"⟩ []).1 = [] ∧
      (handleCreateAuditLog "a1" true
        ⟨some "CREATE", some "Transaction", some "t1", some "u1", some "SUCCESS",
          some "c1", some "svc"⟩ []).2
        = [NatsMsg.failed (some "c1") "insert failed" false]) :=
  c4_amended_consumer_acks_or_fails_atomically "a1" true
    ⟨some "CREATE", some "Transaction", some "t1", some "u1", some "SUCCESS",
      some "c1", some "svc"⟩ []

/-- C7 counterexample: in a create saga whose audit confirmation timed out
and whose subsequent rollback publish fails, the caller receives the publish
error — not `DistributedTransactionError`.  The `await` on
`natsClient.publish` inside the catch block throws, and that error replaces
the original `DistributedTransactionException` being rethrown. -/
theorem c7_counterexample :
    (TransactionService.createTransaction jsNumberIntModel "c1" "t1" "u1"
      ⟨10050, Currency.USD, none, none⟩ []
      ⟨true, true, WaiterOutcome.timedOut, false⟩).result
      = Except.error (SagaError.publishError AUDIT_LOG_ROLLBACK) ∧
    SagaError.publishError AUDIT_LOG_ROLLBACK ≠ SagaError.distributedTransaction := by
  exact ⟨by decide, by decide⟩

/-- C7 (amended): for every saga operation whose audit confirmation timed
out, if the subsequent publish of the `audit.log.rollback` compensation
message itself fails, the local transaction is still rolled back and no
compensation message is delivered, but the operation fails with the
rollback-publish error in place of `DistributedTransactionError`. -/
theorem c7_amended_rollback_publish_failure_replaces_error :
    (∀ (J : JsNumberModel) (cid newId uid : String) (dto : CreateTransactionDto)
        (db : LocalDB) (env : SagaEnv),
      env.localWriteOk = true → env.createPublishOk = true →
      env.waiter = WaiterOutcome.timedOut → env.rollbackPublishOk = false →
      (TransactionService.createTransaction J cid newId uid dto db env).db = db ∧
      (∀ r reason, NatsMsg.rollback r reason ∉
        (TransactionService.createTransaction J cid newId uid dto db env).delivered) ∧
      (TransactionService.createTransaction J cid newId uid dto db env).result
        = Except.error (SagaError.publishError AUDIT_LOG_ROLLBACK)) ∧
    (∀ (J : JsNumberModel) (cid id uid : String) (dto : UpdateTransactionDto)
        (db : LocalDB) (env : SagaEnv) (t0 : Transaction),
      findOneByIdAndUser id uid db = some t0 →
      env.localWriteOk = true → env.createPublishOk = true →
      env.waiter = WaiterOutcome.timedOut → env.rollbackPublishOk = false →
      (TransactionService.updateTransaction J cid id uid dto db env).db = db ∧
      (∀ r reason, NatsMsg.rollback r reason ∉
        (TransactionService.updateTransaction J cid id uid dto db env).delivered) ∧
      (TransactionService.updateTransaction J cid id uid dto db env).result
        = Except.error (SagaError.publishError AUDIT_LOG_ROLLBACK)) ∧
    (∀ (cid id uid : String) (db : LocalDB) (env : SagaEnv) (t0 : Transaction),
      findOneByIdAndUser id uid db = some t0 →
      env.localWriteOk = true → env.createPublishOk = true →
      env.waiter = WaiterOutcome.timedOut → env.rollbackPublishOk = false →
      (TransactionService.deleteTransaction cid id uid db env).db = db ∧
      (∀ r reason, NatsMsg.rollback r reason ∉
        (TransactionService.deleteTransaction cid id uid db env).delivered) ∧
      (TransactionService.deleteTransaction cid id uid db env).result
        = Except.error (SagaError.publishError AUDIT_LOG_ROLLBACK)) := by
  refine ⟨?_, ?_, ?_⟩
  · intro J cid newId uid dto db env hlw hcp hw hrb
    obtain ⟨lw, cp, w, rp⟩ := env
    simp only at hlw hcp hw hrb
    subst hlw; subst hcp; subst hw; subst hrb
    simp [TransactionService.createTransaction, sagaCatch]
  · intro J cid id uid dto db env t0 hfind hlw hcp hw hrb
    obtain ⟨lw, cp, w, rp⟩ := env
    simp only at hlw hcp hw hrb
    subst hlw; subst hcp; subst hw; subst hrb
    simp [TransactionService.updateTransaction, sagaCatch, hfind]
  · intro cid id uid db env t0 hfind hlw hcp hw hrb
    obtain ⟨lw, cp, w, rp⟩ := env
    simp only at hlw hcp hw hrb
    subst hlw; subst hcp; subst hw; subst hrb
    simp [TransactionService.deleteTransaction, sagaCatch, hfind]

/-- Instantiation of C7 (amended) at a concrete create saga. -/
theorem c7_witness :
    (TransactionService.createTransaction jsNumberIntModel "c7" "t7" "u7"
      ⟨200, Currency.EUR, none, none⟩ []
      ⟨true, true, WaiterOutcome.timedOut, false⟩).db = [] ∧
    (∀ r reason, NatsMsg.rollback r reason ∉
      (TransactionService.createTransaction jsNumberIntModel "c7" "t7" "u7"
        ⟨200, Currency.EUR, none, none⟩ []
        ⟨true, true, WaiterOutcome.timedOut, false⟩).delivered) ∧
    (TransactionService.createTransaction jsNumberIntModel "c7" "t7" "u7"
      ⟨200, Currency.EUR, none, none⟩ []
      ⟨true, true, WaiterOutcome.timedOut, false⟩).result
      = Except.error (SagaError.publishError AUDIT_LOG_ROLLBACK) :=
  c7_amended_rollback_publish_failure_replaces_error.1 jsNumberIntModel
    "c7" "t7" "u7" ⟨200, Currency.EUR, none, none⟩ []
    ⟨true, true, WaiterOutcome.timedOut, false⟩ rfl rfl rfl rfl

lemma create_ne_rollback_subject : AUDIT_LOG_CREATE ≠ AUDIT_LOG_ROLLBACK := by
  decide

lemma registersBeforeCreatePublish_cons_register (cid : String) (t : Nat)
    (rest : List SagaEvent) :
    registersBeforeCreatePublish (SagaEvent.registerWaiter cid t :: rest) cid := by
  intro j hj
  match j with
  | 0 => simp at hj
  | Nat.succ k => exact ⟨0, t, Nat.succ_pos k, by simp⟩

lemma registersBeforeCreatePublish_of_not_mem (evs : List SagaEvent)
    (cid : String) (h : SagaEvent.publishAttempt AUDIT_LOG_CREATE cid ∉ evs) :
    registersBeforeCreatePublish evs cid := by
  intro j hj
  exact absurd (List.getElem?_mem hj) h

/-- C2 counterexample: in the earlier revision of the coordinator kept in the
source, a successful create saga publishes the `audit.log.create` envelope
as its very first event and only afterwards sets up the confirmation
subscription — no waiter registration precedes the publish. -/
theorem c2_counterexample :
    SagaEvent.publishAttempt AUDIT_LOG_CREATE "c1" ∈
      (TransactionServiceV1.createTransaction jsNumberIntModel "c1" "t1" "u1"
        ⟨10050, Currency.USD, none, none⟩ []
        ⟨true, true, WaiterOutcome.confirmed, true⟩).events ∧
    ¬ registersBeforeCreatePublish
      (TransactionServiceV1.createTransaction jsNumberIntModel "c1" "t1" "u1"
        ⟨10050, Currency.USD, none, none⟩ []
        ⟨true, true, WaiterOutcome.confirmed, true⟩).events "c1" := by
  constructor
  · decide
  · intro h
    obtain ⟨i, t, hi, _⟩ := h 0 (by decide)
    exact Nat.not_lt_zero i hi

/-- C2 (amended): in the optimized coordinator every saga operation
registers the pending waiter for the freshly generated correlation id in the
registry before publishing the `audit.log.create` envelope, so an ack index
later than the publish index is also later than the registration index; the
earlier coordinator revision kept in the source publishes first (see the
counterexample). -/
theorem c2_amended_register_before_publish :
    (∀ (J : JsNumberModel) (cid newId uid : String) (dto : CreateTransactionDto)
        (db : LocalDB) (env : SagaEnv),
      registersBeforeCreatePublish
        (TransactionService.createTransaction J cid newId uid dto db env).events cid) ∧
    (∀ (J : JsNumberModel) (cid id uid : String) (dto : UpdateTransactionDto)
        (db : LocalDB) (env : SagaEnv),
      registersBeforeCreatePublish
        (TransactionService.updateTransaction J cid id uid dto db env).events cid) ∧
    (∀ (cid id uid : String) (db : LocalDB) (env : SagaEnv),
      registersBeforeCreatePublish
        (TransactionService.deleteTransaction cid id uid db env).events cid) ∧
    (∀ (evs : List SagaEvent) (cid : String) (j k : Nat),
      registersBeforeCreatePublish evs cid →
      evs[j]? = some (SagaEvent.publishAttempt AUDIT_LOG_CREATE cid) → j < k →
      ∃ i t, i < k ∧ evs[i]? = some (SagaEvent.registerWaiter cid t)) := by
  refine ⟨?_, ?_, ?_, ?_⟩
  · intro J cid newId uid dto db env
    obtain ⟨lw, cp, w, rp⟩ := env
    cases lw <;> cases cp <;> cases w <;> cases rp <;>
      simp only [TransactionService.createTransaction, sagaCatch] <;>
      simp only [Bool.false_eq_true, if_false, if_true, List.nil_append,
        List.cons_append, List.append_nil] <;>
      first
      | exact registersBeforeCreatePublish_cons_register cid auditAckTimeoutMs _
      | exact registersBeforeCreatePublish_of_not_mem _ _
          (by simp [create_ne_rollback_subject])
  · intro J cid id uid dto db env
    obtain ⟨lw, cp, w, rp⟩ := env
    cases hfind : findOneByIdAndUser id uid db <;>
      cases lw <;> cases cp <;> cases w <;> cases rp <;>
        simp only [TransactionService.updateTransaction, sagaCatch, hfind] <;>
        simp only [Bool.false_eq_true, if_false, if_true, List.nil_append,
          List.cons_append, List.append_nil] <;>
        first
        | exact registersBeforeCreatePublish_cons_register cid auditAckTimeoutMs _
        | exact registersBeforeCreatePublish_of_not_mem _ _
            (by simp [create_ne_rollback_subject])
  · intro cid id uid db env
    obtain ⟨lw, cp, w, rp⟩ := env
    cases hfind : findOneByIdAndUser id uid db <;>
      cases lw <;> cases cp <;> cases w <;> cases rp <;>
        simp only [TransactionService.deleteTransaction, sagaCatch, hfind] <;>
        simp only [Bool.false_eq_true, if_false, if_true, List.nil_append,
          List.cons_append, List.append_nil] <;>
        first
        | exact registersBeforeCreatePublish_cons_register cid auditAckTimeoutMs _
        | exact registersBeforeCreatePublish_of_not_mem _ _
            (by simp [create_ne_rollback_subject])
  · intro evs cid j k h hj hjk
    obtain ⟨i, t, hij, hi⟩ := h j hj
    exact ⟨i, t, lt_trans hij hjk, hi⟩

/-- Instantiation of C2 (amended) at a concrete confirmed create saga. -/
theorem c2_witness :
    registersBeforeCreatePublish
      (TransactionService.createTransaction jsNumberIntModel "c2" "t2" "u2"
        ⟨100, Currency.USD, none, none⟩ []
        ⟨true, true, WaiterOutcome.confirmed, true⟩).events "c2" :=
  c2_amended_register_before_publish.1 jsNumberIntModel "c2" "t2" "u2"
    ⟨100, Currency.USD, none, none⟩ []
    ⟨true, true, WaiterOutcome.confirmed, true⟩

/-- C8 counterexample: a saga operation of the earlier coordinator revision
kept in the source awaits its audit confirmation with a 5000 ms budget, not
10 seconds; no 10000 ms waiter registration occurs in that run. -/
theorem c8_counterexample :
    SagaEvent.subscribeConfirmations "c1" 5000 ∈
      (TransactionServiceV1.createTransaction jsNumberIntModel "c1" "t1" "u1"
        ⟨10050, Currency.USD, none, none⟩ []
        ⟨true, true, WaiterOutcome.confirmed, true⟩).events ∧
    (5000 : Nat) ≠ 10000 ∧
    (∀ t : Nat, SagaEvent.registerWaiter "c1" t ∉
      (TransactionServiceV1.createTransaction jsNumberIntModel "c1" "t1" "u1"
        ⟨10050, Currency.USD, none, none⟩ []
        ⟨true, true, WaiterOutcome.confirmed, true⟩).events) := by
  refine ⟨by decide, by decide, ?_⟩
  intro t h
  simp [TransactionServiceV1.createTransaction,
    TransactionServiceV1.auditAckTimeoutMs] at h

/-- C8 (amended): every waiter registration performed by the optimized
coordinator's three saga operations carries the fixed 10000 ms wall-clock
budget; the earlier coordinator revision kept in the source uses 5000 ms
instead (see the counterexample). -/
theorem c8_amended_audit_ack_timeout_is_10s :
    auditAckTimeoutMs = 10000 ∧
    TransactionServiceV1.auditAckTimeoutMs = 5000 ∧
    (∀ (J : JsNumberModel) (cid newId uid : String) (dto : CreateTransactionDto)
        (db : LocalDB) (env : SagaEnv) (c : String) (t : Nat),
      SagaEvent.registerWaiter c t ∈
        (TransactionService.createTransaction J cid newId uid dto db env).events →
      t = 10000) ∧
    (∀ (J : JsNumberModel) (cid id uid : String) (dto : UpdateTransactionDto)
        (db : LocalDB) (env : SagaEnv) (c : String) (t : Nat),
      SagaEvent.registerWaiter c t ∈
        (TransactionService.updateTransaction J cid id uid dto db env).events →
      t = 10000) ∧
    (∀ (cid id uid : String) (db : LocalDB) (env : SagaEnv) (c : String) (t : Nat),
      SagaEvent.registerWaiter c t ∈
        (TransactionService.deleteTransaction cid id uid db env).events →
      t = 10000) := by
  refine ⟨rfl, rfl, ?_, ?_, ?_⟩
  · intro J cid newId uid dto db env c t h
    obtain ⟨lw, cp, w, rp⟩ := env
    cases lw <;> cases cp <;> cases w <;> cases rp <;>
      simp_all [TransactionService.createTransaction, sagaCatch, auditAckTimeoutMs]
  · intro J cid id uid dto db env c t h
    obtain ⟨lw, cp, w, rp⟩ := env
    cases hfind : findOneByIdAndUser id uid db <;>
      cases lw <;> cases cp <;> cases w <;> cases rp <;>
        simp_all [TransactionService.updateTransaction, sagaCatch, auditAckTimeoutMs]
  · intro cid id uid db env c t h
    obtain ⟨lw, cp, w, rp⟩ := env
    cases hfind : findOneByIdAndUser id uid db <;>
      cases lw <;> cases cp <;> cases w <;> cases rp <;>
        simp_all [TransactionService.deleteTransaction, sagaCatch, auditAckTimeoutMs]

/-- Instantiation of C8 (amended) at a concrete confirmed create saga. -/
theorem c8_witness :
    auditAckTimeoutMs = 10000 :=
  c8_amended_audit_ack_timeout_is_10s.2.2.1 jsNumberIntModel "c8" "t8" "u8"
    ⟨100, Currency.USD, none, none⟩ []
    ⟨true, true, WaiterOutcome.confirmed, true⟩ "c8" auditAckTimeoutMs (by decide)

lemma not_float64_one_hundredth : ¬ isFloat64Value ((1 : ℚ) / 100) := by
  rintro ⟨m, e, h⟩
  rcases le_or_lt 0 e with he | he
  · obtain ⟨n, rfl⟩ := Int.eq_ofNat_of_zero_le he
    rw [zpow_natCast] at h
    rw [div_eq_iff (by norm_num : (100 : ℚ) ≠ 0)] at h
    have h2 : (1 : ℤ) = m * 2 ^ n * 100 := by exact_mod_cast h
    have h3 : (100 : ℤ) ∣ 1 := ⟨m * 2 ^ n, by linarith⟩
    have h4 := Int.le_of_dvd one_pos h3
    norm_num at h4
  · obtain ⟨k, hk⟩ : ∃ k : ℕ, e = -(k : ℤ) :=
      ⟨(-e).toNat, by rw [Int.toNat_of_nonneg (by linarith)]; ring⟩
    subst hk
    rw [zpow_neg, zpow_natCast, ← div_eq_mul_inv] at h
    rw [div_eq_div_iff (by norm_num : (100 : ℚ) ≠ 0)
      (by positivity : ((2 : ℚ) ^ k) ≠ 0)] at h
    have h3 : (2 : ℤ) ^ k = m * 100 := by
      have h2 : ((2 : ℚ)) ^ k = (m : ℚ) * 100 := by rw [← h]; ring
      exact_mod_cast h2
    have h5 : (5 : ℤ) ∣ 2 ^ k := ⟨m * 20, by linarith⟩
    have h6 : (5 : ℕ) ∣ 2 ^ k := by
      have h7 := Int.natAbs_dvd_natAbs.mpr h5
      simpa [Int.natAbs_pow] using h7
    have h8 : (5 : ℕ) ∣ 2 := Nat.Prime.dvd_of_dvd_pow (by norm_num) h6
    norm_num at h8

/-- C9 counterexample: a stored amount of one cent (`decimal(15,2)` value
0.01) cannot be carried exactly by `mapToDto`, whatever binary64 rounding the
runtime's `Number(...)` performs: 1/100 is not a dyadic rational, so it is
not a binary64 value at all. -/
theorem c9_counterexample :
    ¬ ∃ J : JsNumberModel,
      (mapToDto J ⟨"t1", "u1", 1, Currency.USD, TransactionStatus.PENDING,
        none, none⟩).amount = decimalValue 1 := by
  rintro ⟨J, hJ⟩
  have hf := J.toNum_float64 1
  rw [show (mapToDto J ⟨"t1", "u1", 1, Currency.USD, TransactionStatus.PENDING,
    none, none⟩).amount = J.toNum 1 from rfl] at hJ
  rw [hJ] at hf
  rw [show decimalValue 1 = (1 : ℚ) / 100 by norm_num [decimalValue]] at hf
  exact not_float64_one_hundredth hf

/-- C9 (amended): the mapping to the `TransactionDto` passes the stored
`decimal(15,2)` amount through JavaScript's `Number(...)` (IEEE-754
binary64), so the DTO amount is always a dyadic rational; it can therefore
equal the exact stored decimal only when that decimal is itself dyadic —
amounts such as 0.01 are necessarily altered (see the counterexample). -/
theorem c9_amended_dto_amount_is_binary64 (J : JsNumberModel) (t : Transaction) :
    isFloat64Value ((mapToDto J t).amount) ∧
    ((mapToDto J t).amount = decimalValue t.amountCents →
      isFloat64Value (decimalValue t.amountCents)) := by
  refine ⟨J.toNum_float64 t.amountCents, ?_⟩
  intro h
  rw [← h]
  exact J.toNum_float64 t.amountCents

/-- Instantiation of C9 (amended) at a concrete model and row. -/
theorem c9_witness :
    isFloat64Value ((mapToDto jsNumberIntModel
      ⟨"t9", "u9", 10050, Currency.USD, TransactionStatus.PENDING,
        none, none⟩).amount) ∧
    ((mapToDto jsNumberIntModel
      ⟨"t9", "u9", 10050, Currency.USD, TransactionStatus.PENDING,
        none, none⟩).amount = decimalValue 10050 →
      isFloat64Value (decimalValue 10050)) :=
  c9_amended_dto_amount_is_binary64 jsNumberIntModel
    ⟨"t9", "u9", 10050, Currency.USD, TransactionStatus.PENDING, none, none⟩

end TxnSys
